import Mathlib

/-!
Shallow embedding of the child-process launcher of `src/child.cpp`
(`bpftrace` namespace): command validation (`validate_cmd`), the child
entry point (`childfn`), the `ChildProc` constructor/destructor and its
member functions (`is_alive`, `terminate`, `resume`, `run`,
`check_wstatus`, `check_child`).

Operating-system interactions (`waitpid`, `write`, `close`, `kill`,
`ptrace`, `eventfd`, `clone`, `prctl`, `execve`, heap allocation of the
clone stack) are modelled by an explicit event trace and by oracle
parameters supplying each syscall's outcome, so that every function is
an executable Lean definition whose behaviour on a concrete oracle can
be evaluated.
-/

deriving instance DecidableEq for Except

namespace Bpftrace

/-- `constexpr unsigned int maxargs = 256` in `child.cpp`. -/
def maxargs : Nat := 256

/-- `constexpr uint64_t CHILD_GO = 'g'` (ASCII 103). -/
def CHILD_GO : Nat := 103

/-- `constexpr uint64_t CHILD_PTRACE = 'p'` (ASCII 112). -/
def CHILD_PTRACE : Nat := 112

/-- `constexpr unsigned int STACK_SIZE = 64 * 1024`. -/
def STACK_SIZE : Nat := 64 * 1024

/-- Linux signal number `SIGTRAP`. -/
def SIGTRAP : Nat := 5

/-- Linux signal number `SIGKILL`. -/
def SIGKILL : Nat := 9

/-- Linux signal number `SIGTERM`. -/
def SIGTERM : Nat := 15

/-- Linux signal number `SIGSTOP`. -/
def SIGSTOP : Nat := 19

/-- Linux errno `EINTR`. -/
def EINTR : Nat := 4

/-- Linux errno `ECHILD`. -/
def ECHILD : Nat := 10

/-- Linux errno `EINVAL`. -/
def EINVAL : Nat := 22

/-- `PTRACE_EVENT_EXEC` ptrace event code. -/
def PTRACE_EVENT_EXEC : Nat := 4

/-- glibc `WTERMSIG(s) = s & 0x7f`. -/
def WTERMSIG (s : Nat) : Nat := s % 128

/-- glibc `WIFEXITED(s) = WTERMSIG(s) == 0`. -/
def WIFEXITED (s : Nat) : Bool := WTERMSIG s == 0

/-- glibc `WIFSIGNALED(s) = ((signed char)(((s & 0x7f) + 1) >> 1)) > 0`,
which holds exactly when `s & 0x7f` lies strictly between `0` and `0x7f`. -/
def WIFSIGNALED (s : Nat) : Bool := decide (0 < s % 128 ∧ s % 128 < 127)

/-- glibc `WIFSTOPPED(s) = (s & 0xff) == 0x7f`. -/
def WIFSTOPPED (s : Nat) : Bool := s % 256 == 127

/-- glibc `WSTOPSIG(s) = (s >> 8) & 0xff`. -/
def WSTOPSIG (s : Nat) : Nat := (s >>> 8) % 256

/-- glibc `WEXITSTATUS(s) = (s >> 8) & 0xff`. -/
def WEXITSTATUS (s : Nat) : Nat := (s >>> 8) % 256

/-- Observable actions performed by the embedded code: syscalls, the
clone-stack allocation/deallocation, log output, and the construction of
a `std::system_error` value. -/
inductive Event
  | allocStack (id : Nat)
  | freeStack (id : Nat)
  | eventfdCreate (ret : Int)
  | sysErrorBuilt
  | cloneCall (ret : Int)
  | closeFd (fd : Int)
  | writeFd (fd : Int) (token : Nat)
  | readFd (fd : Int)
  | killSig (pid : Int) (sig : Nat)
  | ptraceTraceme
  | ptraceSetOptions (pid : Int)
  | ptraceCont (pid : Int)
  | ptraceDetach (pid : Int)
  | waitpidCall (blocking : Bool)
  | prctlPdeathsig
  | execveCall (path : String)
  | logBug
  | logWarning
  deriving DecidableEq

/-- `enum class State` of `ChildProc` (declared in `child.h`, used
throughout `child.cpp`): `FORKED`, `RUNNING`, `PTRACE_PAUSE`, `DIED`. -/
inductive State
  | FORKED
  | RUNNING
  | PTRACE_PAUSE
  | DIED
  deriving DecidableEq

/-- The `ChildProc` object: tracked pid, start-gate eventfd, lifecycle
state, and the exit data recorded by `check_wstatus`. -/
structure ChildProc where
  child_pid_ : Int
  child_event_fd_ : Int
  state_ : State
  exit_code_ : Option Nat
  term_signal_ : Option Nat
  deriving DecidableEq

/-- Outcome of one `waitpid` invocation, supplied by the oracle:
`reaped status` models a return of the child's pid together with the
raw wait status, `zero` models a `WNOHANG` return of `0`, and
`fail errno` models a return of `-1` with the given `errno`. -/
inductive WaitRes
  | reaped (status : Nat)
  | zero
  | fail (errno : Nat)
  deriving DecidableEq

/-- Modelled from the spec: `ChildProc::died` is declared in `child.h`,
which is not among the sources; per the spec's state machine `Dead` is
absorbing and `died` reports whether the process has transitioned to
`Dead`, i.e. whether `state_ == State::DIED`. -/
def ChildProc.died (cp : ChildProc) : Bool := decide (cp.state_ = State.DIED)

/-- `ChildProc::check_wstatus`: a normal exit records the exit code, a
termination by signal records the signal, stop/continue statuses are
ignored; in the first two cases the state becomes `DIED`. -/
def check_wstatus (cp : ChildProc) (wstatus : Nat) : ChildProc :=
  if WIFEXITED wstatus then
    { cp with exit_code_ := some (WEXITSTATUS wstatus), state_ := State.DIED }
  else if WIFSIGNALED wstatus then
    { cp with term_signal_ := some (WTERMSIG wstatus), state_ := State.DIED }
  else
    cp

/-- The retry loop `while ((ret = waitpid(...)) < 0 && errno == EINTR);`
of `check_child`: consume oracle outcomes until the first one that is
not `fail EINTR`, returning it together with the unconsumed suffix and
the number of `waitpid` invocations made; `none` models a waitpid
sequence that is all `EINTR` (the loop would not terminate). -/
def firstNonEintr : List WaitRes → Option (WaitRes × List WaitRes × Nat)
  | [] => none
  | w :: rest =>
    if w = WaitRes.fail EINTR then
      (firstNonEintr rest).map (fun r => (r.1, r.2.1, r.2.2 + 1))
    else
      some (w, rest, 1)

/-- `ChildProc::check_child(bool block)`: retries `waitpid` on `EINTR`;
on an `EINVAL` failure logs a BUG and falls through to `check_wstatus`
applied to the still-zeroed `status` variable; on any other failure
logs a warning and defensively marks the child dead; a `0` return
changes nothing; otherwise interprets the reaped status. The flag
`block` clears `WNOHANG`. -/
def check_child (cp : ChildProc) (block : Bool) (os : List WaitRes) :
    Option (ChildProc × List WaitRes × List Event) :=
  match firstNonEintr os with
  | none => none
  | some (o, rest, n) =>
    let evs := List.replicate n (Event.waitpidCall block)
    match o with
    | WaitRes.fail e =>
      if e = EINVAL then
        some (check_wstatus cp 0, rest, evs ++ [Event.logBug])
      else
        some ({ cp with state_ := State.DIED }, rest, evs ++ [Event.logWarning])
    | WaitRes.zero => some (cp, rest, evs)
    | WaitRes.reaped status => some (check_wstatus cp status, rest, evs)

/-- `ChildProc::is_alive`: `if (!died()) check_child(); return !died();`
(the call `check_child()` uses the header's default `block = false`,
matching the spec's non-blocking reap poll). -/
def ChildProc.is_alive (cp : ChildProc) (os : List WaitRes) :
    Option (Bool × ChildProc × List WaitRes × List Event) :=
  if cp.died then
    some (false, cp, os, [])
  else
    match check_child cp false os with
    | none => none
    | some (cp1, os1, ev) => some (!cp1.died, cp1, os1, ev)

/-- `ChildProc::terminate(bool force)`: re-polls the child, returns if
it already died, logs a BUG for a nonsensical pid value, sends `SIGKILL` or
`SIGTERM`, detaches afterwards when in `PTRACE_PAUSE`, and finally calls
`check_child(force)` — whose wait blocks only when `force` is true. -/
def ChildProc.terminate (cp : ChildProc) (force : Bool) (os : List WaitRes) :
    Option (ChildProc × List WaitRes × List Event) :=
  match check_child cp false os with
  | none => none
  | some (cp1, os1, ev1) =>
    if cp1.died then
      some (cp1, os1, ev1)
    else
      let evBug := if cp1.child_pid_ ≤ 1 then [Event.logBug] else []
      let sig := if force then SIGKILL else SIGTERM
      match check_child cp1 force os1 with
      | none => none
      | some (cp2, os2, ev2) =>
        some (cp2, os2,
          ev1 ++ evBug ++ [Event.killSig cp1.child_pid_ sig] ++
            (if cp1.state_ = State.PTRACE_PAUSE
              then [Event.ptraceDetach cp1.child_pid_] else []) ++ ev2)

/-- `ChildProc::resume`: asserts `state_ == PTRACE_PAUSE` and detaches;
`none` models the assertion failing. -/
def ChildProc.resume (cp : ChildProc) : Option (List Event) :=
  if cp.state_ = State.PTRACE_PAUSE then
    some [Event.ptraceDetach cp.child_pid_]
  else
    none

/-- `~ChildProc`: closes the start-gate fd whenever the stored
descriptor is non-negative, then force-terminates the child if it is
still alive. -/
def ChildProc.destructor (cp : ChildProc) (os : List WaitRes) :
    Option (ChildProc × List WaitRes × List Event) :=
  let evClose :=
    if cp.child_event_fd_ ≥ 0 then [Event.closeFd cp.child_event_fd_] else []
  match cp.is_alive os with
  | none => none
  | some (alive, cp1, os1, ev1) =>
    if alive then
      match cp1.terminate true os1 with
      | none => none
      | some (cp2, os2, ev2) => some (cp2, os2, evClose ++ ev1 ++ ev2)
    else
      some (cp1, os1, evClose ++ ev1)

/-- The space character, `' '`. -/
def spaceChar : Char := Char.ofNat 32

/-- Splitting of a character list at every occurrence of `delim`. -/
def splitChars (delim : Char) : List Char → List (List Char)
  | [] => [[]]
  | c :: cs =>
    let r := splitChars delim cs
    if c = delim then
      [] :: r
    else
      match r with
      | [] => [[c]]
      | t :: ts => (c :: t) :: ts

/-- Modelled from the spec: `util::split_string` (declared in
`util/strings.h`, which is not among the sources) — the command line
"accepts a single string, split on spaces into an argument list". -/
def split_string (s : String) (delim : Char) : List String :=
  (splitChars delim s.toList).map (fun l => String.mk l)

/-- The three resolution failures thrown by `validate_cmd`. -/
inductive ResolveErr
  | notFound (tok : String)
  | ambiguousBinary (tok : String) (count : Nat)
  | tooManyArguments (count : Nat)
  deriving DecidableEq

/-- `validate_cmd`: resolves `cmd[0]` against the search path via
`util::resolve_binary_path` (an oracle, filesystem-dependent); zero
candidates fail, one candidate is accepted, several candidates are
canonicalized with `util::abs_path` (an oracle; failed canonicalizations
are skipped) and deduplicated — a singleton set accepts the first raw
candidate, anything else fails with the candidate count.  Afterwards
`cmd.size() >= maxargs - 1` fails with too-many-arguments.  `none`
models the out-of-bounds `cmd[0]` access on an empty vector. -/
def validate_cmd (resolve : String → List String) (absp : String → Option String) :
    List String → Option (Except ResolveErr (List String))
  | [] => none
  | c0 :: rest =>
    match resolve c0 with
    | [] => some (Except.error (ResolveErr.notFound c0))
    | [p] =>
      if maxargs - 1 ≤ rest.length + 1 then
        some (Except.error (ResolveErr.tooManyArguments (rest.length + 1)))
      else
        some (Except.ok (p :: rest))
    | p :: q :: tl =>
      if ((p :: q :: tl).filterMap absp).dedup.length = 1 then
        if maxargs - 1 ≤ rest.length + 1 then
          some (Except.error (ResolveErr.tooManyArguments (rest.length + 1)))
        else
          some (Except.ok (p :: rest))
      else
        some (Except.error (ResolveErr.ambiguousBinary c0 (p :: q :: tl).length))

/-- Errors surfaced by the `ChildProc` constructor: a resolution failure
propagated out of `validate_cmd`, or the thrown
`SYS_ERROR("Failed to clone child")`. -/
inductive SpawnErr
  | resolveFailed (e : ResolveErr)
  | cloneFailed
  deriving DecidableEq

/-- Oracle for the `ChildProc` constructor: the filesystem-dependent
`util::resolve_binary_path` and `util::abs_path`, the return value of
`eventfd(0, EFD_CLOEXEC)`, and the return value of `clone`. -/
structure CtorEnv where
  resolve_binary_path : String → List String
  abs_path : String → Option String
  eventfdRet : Int
  cloneRet : Int

/-- `ChildProc::ChildProc(std::string cmd)`: allocates `child_args` and
the clone stack as local `std::unique_ptr`s, splits and validates the
command, creates the eventfd — on failure a `std::system_error` is
constructed by `SYS_ERROR(...)` but the statement lacks a `throw`, so
execution falls through —, clones the child on the freshly allocated
stack, and records pid/state.  Both `unique_ptr` locals are destroyed
when the constructor returns, on the normal path and during unwinding
alike, which the trace records as `freeStack 0`. -/
def ChildProc.construct (cmd : String) (env : CtorEnv) :
    Option (Except SpawnErr ChildProc × List Event) :=
  let toks := split_string cmd spaceChar
  match validate_cmd env.resolve_binary_path env.abs_path toks with
  | none => none
  | some (Except.error e) =>
    some (Except.error (SpawnErr.resolveFailed e),
      [Event.allocStack 0, Event.freeStack 0])
  | some (Except.ok _) =>
    let fd := env.eventfdRet
    let evFd :=
      Event.eventfdCreate fd :: (if fd < 0 then [Event.sysErrorBuilt] else [])
    if env.cloneRet ≤ 0 then
      some (Except.error SpawnErr.cloneFailed,
        Event.allocStack 0 :: evFd ++
          [Event.cloneCall env.cloneRet, Event.closeFd fd, Event.freeStack 0])
    else
      some (Except.ok
        { child_pid_ := env.cloneRet, child_event_fd_ := fd,
          state_ := State.FORKED, exit_code_ := none, term_signal_ := none },
        Event.allocStack 0 :: evFd ++
          [Event.cloneCall env.cloneRet, Event.freeStack 0])

/-- Oracle for `childfn`: success of `prctl(PR_SET_PDEATHSIG)`, success
of the 8-byte `read` from the gate, the token value read, and success of
`execve` (the `ptrace(PTRACE_TRACEME)` and `kill(getpid(), SIGSTOP)`
failures only `perror` and continue, so they need no oracle). -/
structure ChildEnv where
  prctlOk : Bool
  readOk : Bool
  token : Nat
  execveOk : Bool

/-- How the child ends: `code n` models `return n` out of `childfn`
(10: prctl failed, 11: read failed, 12: execve failed), `execed path`
models a successful `execve` replacing the image. -/
inductive ChildExit
  | code (n : Nat)
  | execed (path : String)
  deriving DecidableEq

/-- `childfn`: sets the parent-death signal, builds the null-terminated
`argv` array from the command tokens, blocks reading one 8-byte token
from the gate, closes the gate, and — only when the token equals
`CHILD_PTRACE` — marks itself traceable and stops itself before calling
`execve`.  `none` models the undefined behaviour of overflowing the
fixed `char* argv[maxargs]` buffer or of an empty command vector
(null `argv[0]`). -/
def childfn (cmd : List String) (event_fd : Int) (selfPid : Int) (env : ChildEnv) :
    Option (ChildExit × List Event) :=
  if env.prctlOk = false then
    some (ChildExit.code 10, [Event.prctlPdeathsig])
  else if maxargs < cmd.length + 1 then
    none
  else
    match cmd with
    | [] => none
    | c0 :: _ =>
      if env.readOk = false then
        some (ChildExit.code 11, [Event.prctlPdeathsig, Event.readFd event_fd])
      else
        let ev0 := [Event.prctlPdeathsig, Event.readFd event_fd,
          Event.closeFd event_fd]
        let evP :=
          if env.token = CHILD_PTRACE then
            [Event.ptraceTraceme, Event.killSig selfPid SIGSTOP]
          else
            []
        if env.execveOk then
          some (ChildExit.execed c0, ev0 ++ evP ++ [Event.execveCall c0])
        else
          some (ChildExit.code 12, ev0 ++ evP ++ [Event.execveCall c0])

/-- Errors surfaced by `ChildProc::run`: the two
`runtime_error("Child died unexpectedly")` throws, the `assert`
on a non-`FORKED` state, the unexpected-status throw of
`report_status` that escapes `run` directly (it sits before the `try`
block), and `SYS_ERROR("Failed to write 'go' event fd")` — thrown on a
failed gate write and rethrown verbatim by the `catch` block. -/
inductive RunErr
  | childDied
  | assertFailed
  | unexpectedStatus (wstatus : Nat)
  | writeGoFailed
  deriving DecidableEq

/-- Oracle for `ChildProc::run`: success of the gate `write`, the junk
value an unwritten `wstatus` holds when a direct `waitpid` fails without
filling it, success of `ptrace(PTRACE_SETOPTIONS)` and
`ptrace(PTRACE_CONT)`, and the stream of `waitpid` outcomes consumed by
every wait in the call (including those of nested `check_child` and
`terminate` calls). -/
structure RunEnv where
  writeOk : Bool
  junkStatus : Nat
  setoptsOk : Bool
  contOk : Bool
  waits : List WaitRes

/-- The `catch` block of `ChildProc::run`: detaches, force-terminates,
and rethrows `SYS_ERROR("Failed to write 'go' event fd")`. -/
def runCatch (cp : ChildProc) (os : List WaitRes) (ev : List Event) :
    Option (Except RunErr Unit × ChildProc × List WaitRes × List Event) :=
  match cp.terminate true os with
  | none => none
  | some (cp2, os2, evT) =>
    some (Except.error RunErr.writeGoFailed, cp2, os2,
      ev ++ [Event.ptraceDetach cp.child_pid_] ++ evT)

/-- `ChildProc::run(bool pause)`: checks liveness, asserts `FORKED`,
writes the `CHILD_PTRACE`/`CHILD_GO` token to the gate and closes it
(without resetting `child_event_fd_`).  With `pause` it transitions to
`PTRACE_PAUSE` and waits directly for the self-issued stop — an `ECHILD`
failure throws, any other `waitpid` failure falls through with the junk
`wstatus`, and a status other than stopped-by-`SIGSTOP` raises
`report_status` outside the `try` block.  Inside the `try` block it arms
`PTRACE_O_TRACEEXEC`, continues the child, and waits for the exec trap;
every failure there is caught by `runCatch`. -/
def ChildProc.run (cp : ChildProc) (pause : Bool) (env : RunEnv) :
    Option (Except RunErr Unit × ChildProc × List WaitRes × List Event) :=
  match cp.is_alive env.waits with
  | none => none
  | some (alive, cp0, os0, ev0) =>
    if alive = false then
      some (Except.error RunErr.childDied, cp0, os0, ev0)
    else if cp0.state_ ≠ State.FORKED then
      some (Except.error RunErr.assertFailed, cp0, os0, ev0)
    else
      let tok := if pause then CHILD_PTRACE else CHILD_GO
      let ev1 := ev0 ++ [Event.writeFd cp0.child_event_fd_ tok]
      if env.writeOk = false then
        match cp0.terminate true os0 with
        | none => none
        | some (cp2, os2, evT) =>
          some (Except.error RunErr.writeGoFailed, cp2, os2,
            ev1 ++ [Event.closeFd cp0.child_event_fd_] ++ evT)
      else
        let ev2 := ev1 ++ [Event.closeFd cp0.child_event_fd_]
        if pause = false then
          some (Except.ok (), { cp0 with state_ := State.RUNNING }, os0, ev2)
        else
          let cp1 := { cp0 with state_ := State.PTRACE_PAUSE }
          match os0 with
          | [] => none
          | w1 :: os1 =>
            let ev3 := ev2 ++ [Event.waitpidCall true]
            if w1 = WaitRes.fail ECHILD then
              some (Except.error RunErr.childDied, cp1, os1, ev3)
            else
              let wstatus :=
                match w1 with
                | WaitRes.reaped s => s
                | _ => env.junkStatus
              if (WIFSTOPPED wstatus && WSTOPSIG wstatus == SIGSTOP) = false then
                some (Except.error (RunErr.unexpectedStatus wstatus), cp1, os1, ev3)
              else
                let ev4 := ev3 ++ [Event.ptraceSetOptions cp1.child_pid_]
                if env.setoptsOk = false then
                  runCatch cp1 os1 ev4
                else
                  let ev5 := ev4 ++ [Event.ptraceCont cp1.child_pid_]
                  if env.contOk = false then
                    runCatch cp1 os1 ev5
                  else
                    match os1 with
                    | [] => none
                    | w2 :: os2 =>
                      let ev6 := ev5 ++ [Event.waitpidCall true]
                      match w2 with
                      | WaitRes.fail _ => runCatch cp1 os2 ev6
                      | WaitRes.zero =>
                        if WIFSTOPPED wstatus &&
                            wstatus >>> 8 == (SIGTRAP ||| (PTRACE_EVENT_EXEC <<< 8)) then
                          some (Except.ok (), cp1, os2, ev6)
                        else
                          runCatch cp1 os2 ev6
                      | WaitRes.reaped s2 =>
                        if WIFSTOPPED s2 &&
                            s2 >>> 8 == (SIGTRAP ||| (PTRACE_EVENT_EXEC <<< 8)) then
                          some (Except.ok (), cp1, os2, ev6)
                        else
                          runCatch cp1 os2 ev6

/-- `true` exactly when the event is a `kill` syscall. -/
def isKill : Event → Bool
  | Event.killSig _ _ => true
  | _ => false

/-- `true` exactly when the event is a `ptrace(PTRACE_DETACH)`. -/
def isDetach : Event → Bool
  | Event.ptraceDetach _ => true
  | _ => false

/-- Whether a trace contains any `kill` syscall. -/
def hasKill (ev : List Event) : Bool := ev.any isKill

/-- Whether a trace contains any `ptrace(PTRACE_DETACH)`. -/
def hasDetach (ev : List Event) : Bool := ev.any isDetach

/-- Whether an `Except` value is a success. -/
def isOkB {α β : Type} : Except α β → Bool
  | Except.ok _ => true
  | Except.error _ => false

/-- Search-path oracle resolving exactly `/bin/echo`, to itself. -/
def echoResolve : String → List String :=
  fun s => if s = ("/bin/echo") then [s] else []

/-- Canonicalization oracle that succeeds with the identity. -/
def identAbs : String → Option String := fun s => some s

/-- Constructor oracle: healthy filesystem, `eventfd` returns fd `3`,
`clone` returns pid `42`. -/
def c1Env : CtorEnv :=
  { resolve_binary_path := echoResolve, abs_path := identAbs,
    eventfdRet := 3, cloneRet := 42 }

/-- Constructor oracle: healthy filesystem, `eventfd` FAILS (returns
`-1`), `clone` returns pid `7`. -/
def c2Env : CtorEnv :=
  { resolve_binary_path := echoResolve, abs_path := identAbs,
    eventfdRet := -1, cloneRet := 7 }

/-- A freshly constructed tracker: pid `42`, gate fd `3`, `FORKED`. -/
def cpForked : ChildProc :=
  { child_pid_ := 42, child_event_fd_ := 3, state_ := State.FORKED,
    exit_code_ := none, term_signal_ := none }

/-- The same tracker after `run(false)`: state `RUNNING`. -/
def cpRunning : ChildProc :=
  { child_pid_ := 42, child_event_fd_ := 3, state_ := State.RUNNING,
    exit_code_ := none, term_signal_ := none }

/-- The same tracker paused at exec: state `PTRACE_PAUSE`. -/
def cpPaused : ChildProc :=
  { child_pid_ := 42, child_event_fd_ := 3, state_ := State.PTRACE_PAUSE,
    exit_code_ := none, term_signal_ := none }

/-- A tracker whose child already exited: state `DIED`. -/
def cpDead : ChildProc :=
  { child_pid_ := 42, child_event_fd_ := 3, state_ := State.DIED,
    exit_code_ := some 0, term_signal_ := none }

/-- Search-path oracle with two candidates that canonicalize alike. -/
def pingResolve : String → List String :=
  fun _ => [("/bin/ping"), ("/usr/bin/ping")]

/-- Canonicalization oracle mapping every candidate to one real path. -/
def pingAbs : String → Option String := fun _ => some ("/usr/bin/ping")

/-- Search-path oracle with two genuinely distinct candidates. -/
def pingResolveDistinct : String → List String :=
  fun _ => [("/bin/ping"), ("/usr/sbin/ping")]

/-- A raw wait status meaning "stopped by `SIGSTOP`"
(`0x7f | SIGSTOP << 8`). -/
def STOPPED_BY_SIGSTOP : Nat := 127 + SIGSTOP * 256

/-- A raw wait status meaning "stopped by `SIGTRAP`"
(`0x7f | SIGTRAP << 8`): the child is alive and stopped, but not by the
expected stop signal. -/
def STOPPED_BY_SIGTRAP : Nat := 127 + SIGTRAP * 256

/-- A raw wait status meaning "killed by `SIGKILL`". -/
def KILLED_BY_SIGKILL : Nat := SIGKILL

/- Helper lemmas about `firstNonEintr` and the shape of `check_child`
results, shared by the claim theorems below. -/

theorem firstNonEintr_pos (os : List WaitRes) :
    ∀ o rest n, firstNonEintr os = some (o, rest, n) → 0 < n := by
  induction os with
  | nil => intro o rest n h; simp [firstNonEintr] at h
  | cons w ws ih =>
    intro o rest n h
    rw [firstNonEintr] at h
    by_cases hw : w = WaitRes.fail EINTR
    · rw [if_pos hw] at h
      cases hf : firstNonEintr ws with
      | none => rw [hf] at h; simp at h
      | some r =>
        rw [hf] at h
        simp only [Option.map_some'] at h
        cases h
        omega
    · rw [if_neg hw] at h
      cases h
      omega

theorem check_child_events (cp : ChildProc) (b : Bool) (os : List WaitRes)
    (cp1 : ChildProc) (os1 : List WaitRes) (ev : List Event)
    (h : check_child cp b os = some (cp1, os1, ev)) :
    ∃ n tail, 0 < n ∧
      (tail = [] ∨ tail = [Event.logBug] ∨ tail = [Event.logWarning]) ∧
      ev = List.replicate n (Event.waitpidCall b) ++ tail := by
  unfold check_child at h
  cases hf : firstNonEintr os with
  | none => rw [hf] at h; simp at h
  | some r =>
    obtain ⟨o, rest, n⟩ := r
    rw [hf] at h
    have hn := firstNonEintr_pos os o rest n hf
    cases o with
    | fail e =>
      by_cases he : e = EINVAL
      · simp only [he, if_pos rfl] at h
        cases h
        exact ⟨n, [Event.logBug], hn, by simp, rfl⟩
      · simp only [if_neg he] at h
        cases h
        exact ⟨n, [Event.logWarning], hn, by simp, rfl⟩
    | zero =>
      cases h
      exact ⟨n, [], hn, by simp, by simp⟩
    | reaped s =>
      cases h
      exact ⟨n, [], hn, by simp, by simp⟩

theorem any_replicate_eq_false {α : Type} (f : α → Bool) (x : α)
    (hf : f x = false) : ∀ n, (List.replicate n x).any f = false := by
  intro n
  induction n with
  | zero => simp
  | succ m ih => simp [List.replicate_succ, hf, ih]

theorem check_child_no_kill (cp : ChildProc) (b : Bool) (os : List WaitRes)
    (cp1 : ChildProc) (os1 : List WaitRes) (ev : List Event)
    (h : check_child cp b os = some (cp1, os1, ev)) : hasKill ev = false := by
  obtain ⟨n, tail, _, htail, hev⟩ := check_child_events cp b os cp1 os1 ev h
  subst hev
  simp only [hasKill, List.any_append, Bool.or_eq_false_iff]
  refine ⟨any_replicate_eq_false isKill (Event.waitpidCall b) rfl n, ?_⟩
  rcases htail with h1 | h1 | h1 <;> subst h1 <;> simp [isKill]

theorem check_child_no_detach (cp : ChildProc) (b : Bool) (os : List WaitRes)
    (cp1 : ChildProc) (os1 : List WaitRes) (ev : List Event)
    (h : check_child cp b os = some (cp1, os1, ev)) : hasDetach ev = false := by
  obtain ⟨n, tail, _, htail, hev⟩ := check_child_events cp b os cp1 os1 ev h
  subst hev
  simp only [hasDetach, List.any_append, Bool.or_eq_false_iff]
  refine ⟨any_replicate_eq_false isDetach (Event.waitpidCall b) rfl n, ?_⟩
  rcases htail with h1 | h1 | h1 <;> subst h1 <;> simp [isDetach]

theorem check_child_wait_flag (cp : ChildProc) (b c : Bool) (os : List WaitRes)
    (cp1 : ChildProc) (os1 : List WaitRes) (ev : List Event)
    (h : check_child cp b os = some (cp1, os1, ev))
    (hm : Event.waitpidCall c ∈ ev) : c = b := by
  obtain ⟨n, tail, _, htail, hev⟩ := check_child_events cp b os cp1 os1 ev h
  subst hev
  rcases List.mem_append.mp hm with h1 | h1
  · have := List.eq_of_mem_replicate h1
    cases this
    rfl
  · rcases htail with h2 | h2 | h2 <;> subst h2 <;> simp at h1

theorem check_child_has_wait (cp : ChildProc) (b : Bool) (os : List WaitRes)
    (cp1 : ChildProc) (os1 : List WaitRes) (ev : List Event)
    (h : check_child cp b os = some (cp1, os1, ev)) :
    Event.waitpidCall b ∈ ev := by
  obtain ⟨n, tail, hn, _, hev⟩ := check_child_events cp b os cp1 os1 ev h
  subst hev
  exact List.mem_append.mpr (Or.inl (List.mem_replicate.mpr ⟨by omega, rfl⟩))

theorem check_wstatus_state_died (cp : ChildProc) (s : Nat)
    (h : cp.state_ = State.DIED) : (check_wstatus cp s).state_ = State.DIED := by
  unfold check_wstatus
  split
  · simp
  · split
    · simp
    · exact h

theorem check_child_preserves_died (cp : ChildProc) (b : Bool)
    (os : List WaitRes) (cp1 : ChildProc) (os1 : List WaitRes) (ev : List Event)
    (h : check_child cp b os = some (cp1, os1, ev))
    (hd : cp.state_ = State.DIED) : cp1.state_ = State.DIED := by
  unfold check_child at h
  cases hf : firstNonEintr os with
  | none => rw [hf] at h; simp at h
  | some r =>
    obtain ⟨o, rest, n⟩ := r
    rw [hf] at h
    cases o with
    | fail e =>
      by_cases he : e = EINVAL
      · simp only [he, if_pos rfl] at h
        cases h
        exact check_wstatus_state_died cp 0 hd
      · simp only [if_neg he] at h
        cases h
        rfl
    | zero =>
      cases h
      exact hd
    | reaped s =>
      cases h
      exact check_wstatus_state_died cp s hd

/-- Claim C1, as stated, is FALSE on the code: at a concrete successful
launch (`eventfd` returns 3, `clone` returns 42) the constructor returns
a `FORKED` tracker, yet the dedicated stack region — a local
`std::unique_ptr` — is deallocated (`freeStack 0` is in the trace) when
the launch call returns, not kept alive for the child's lifetime. -/
theorem construct_stack_retained_refuted :
    (ChildProc.construct ("/bin/echo hello") c1Env).map
        (fun r => (isOkB r.1, decide (Event.freeStack 0 ∈ r.2))) =
      some (true, true) := by decide

/-- Claim C1, amended: the stack region allocated for the child image is
owned by the launcher only for the duration of the launch call itself —
on every completed constructor execution, successful or not, the stack
is released (`freeStack 0`) before the call returns; the duplicated
child is unaffected because `clone` without `CLONE_VM` gives it its own
copy of the address space. -/
theorem construct_frees_stack_on_return (cmd : String) (env : CtorEnv)
    (out : Except SpawnErr ChildProc × List Event)
    (h : ChildProc.construct cmd env = some out) :
    Event.freeStack 0 ∈ out.2 := by
  simp only [ChildProc.construct] at h
  cases hv : validate_cmd env.resolve_binary_path env.abs_path
      (split_string cmd spaceChar) with
  | none => simp [hv] at h
  | some r =>
    simp only [hv] at h
    cases r with
    | error e =>
      cases h
      simp
    | ok c =>
      by_cases hc : env.cloneRet ≤ 0
      · rw [if_pos hc] at h
        cases h
        by_cases hfd : env.eventfdRet < 0 <;> simp [hfd]
      · rw [if_neg hc] at h
        cases h
        by_cases hfd : env.eventfdRet < 0 <;> simp [hfd]

/-- Witness for `construct_frees_stack_on_return`, at a command whose
resolution fails (unwinding path): the stack is still freed. -/
theorem construct_frees_stack_on_return_witness :
    Event.freeStack 0 ∈ [Event.allocStack 0, Event.freeStack 0] :=
  construct_frees_stack_on_return ("/bin/true") c1Env
    (Except.error (SpawnErr.resolveFailed (ResolveErr.notFound ("/bin/true"))),
      [Event.allocStack 0, Event.freeStack 0]) (by decide)

/-- Claim C2: the code contradicts it (code bug).  When creation of the
start gate fails (`eventfd` returns `-1`) while `clone` succeeds, the
constructor builds the `std::system_error` via `SYS_ERROR(...)` but the
statement lacks a `throw`: no error reaches the caller, the constructor
returns success with `child_event_fd_ = -1`, and a child process exists
(`cloneCall 7` is in the trace). -/
theorem eventfd_failure_not_reported :
    ChildProc.construct ("/bin/echo") c2Env =
      some (Except.ok
        { child_pid_ := 7, child_event_fd_ := -1, state_ := State.FORKED,
          exit_code_ := none, term_signal_ := none },
        [Event.allocStack 0, Event.eventfdCreate (-1), Event.sysErrorBuilt,
         Event.cloneCall 7, Event.freeStack 0]) := by decide

/-- Claim C6: after the first token resolves to a unique candidate,
`validate_cmd` fails with `TooManyArguments` exactly when the token
count reaches `maxargs - 1 = 255`, and succeeds below that bound; so a
254-token command line is the accepted maximum and 255 tokens fail. -/
theorem validate_cmd_toomanyargs_boundary (resolve : String → List String)
    (absp : String → Option String) (c0 p : String) (rest : List String)
    (hres : resolve c0 = [p]) :
    (maxargs - 1 ≤ rest.length + 1 ↔
      validate_cmd resolve absp (c0 :: rest) =
        some (Except.error (ResolveErr.tooManyArguments (rest.length + 1))))
    ∧ (rest.length + 1 < maxargs - 1 →
      validate_cmd resolve absp (c0 :: rest) = some (Except.ok (p :: rest))) := by
  have hstep : validate_cmd resolve absp (c0 :: rest) =
      if maxargs - 1 ≤ rest.length + 1 then
        some (Except.error (ResolveErr.tooManyArguments (rest.length + 1)))
      else
        some (Except.ok (p :: rest)) := by
    simp only [validate_cmd, hres]
  constructor
  · constructor
    · intro hlen
      rw [hstep, if_pos hlen]
    · intro heq
      by_cases hlen : maxargs - 1 ≤ rest.length + 1
      · exact hlen
      · rw [hstep, if_neg hlen] at heq
        simp at heq
  · intro hlt
    rw [hstep, if_neg (Nat.not_le.mpr hlt)]

set_option maxRecDepth 4000 in
/-- Witness for `validate_cmd_toomanyargs_boundary`: with 254 tokens
(the boundary) resolution succeeds, and with 255 tokens it fails with
`TooManyArguments 255`. -/
theorem validate_cmd_toomanyargs_boundary_witness :
    validate_cmd echoResolve identAbs ("/bin/echo" :: List.replicate 253 "a") =
      some (Except.ok ("/bin/echo" :: List.replicate 253 "a"))
    ∧ validate_cmd echoResolve identAbs ("/bin/echo" :: List.replicate 254 "a") =
      some (Except.error (ResolveErr.tooManyArguments 255)) := by
  constructor
  · exact (validate_cmd_toomanyargs_boundary echoResolve identAbs
      ("/bin/echo") ("/bin/echo") (List.replicate 253 "a") (by decide)).2
      (by simp [maxargs])
  · exact (validate_cmd_toomanyargs_boundary echoResolve identAbs
      ("/bin/echo") ("/bin/echo") (List.replicate 254 "a") (by decide)).1.mp
      (by simp [maxargs])

/-- Claim C7: with `N ≥ 2` candidates, all of which canonicalize, the
resolver accepts the first raw candidate when the deduplicated set of
absolute real paths has size 1, and otherwise fails with
`AmbiguousBinary` reporting the raw candidate count `N`. -/
theorem validate_cmd_ambiguous_dedup (resolve : String → List String)
    (absp : String → Option String) (c0 : String) (rest : List String)
    (p q : String) (tl : List String)
    (hres : resolve c0 = p :: q :: tl)
    (_hall : ∀ x ∈ p :: q :: tl, (absp x).isSome)
    (hlen : rest.length + 1 < maxargs - 1) :
    (((p :: q :: tl).filterMap absp).dedup.length = 1 →
      validate_cmd resolve absp (c0 :: rest) = some (Except.ok (p :: rest)))
    ∧ (((p :: q :: tl).filterMap absp).dedup.length ≠ 1 →
      validate_cmd resolve absp (c0 :: rest) =
        some (Except.error
          (ResolveErr.ambiguousBinary c0 (p :: q :: tl).length))) := by
  have hstep : validate_cmd resolve absp (c0 :: rest) =
      if ((p :: q :: tl).filterMap absp).dedup.length = 1 then
        if maxargs - 1 ≤ rest.length + 1 then
          some (Except.error (ResolveErr.tooManyArguments (rest.length + 1)))
        else
          some (Except.ok (p :: rest))
      else
        some (Except.error
          (ResolveErr.ambiguousBinary c0 (p :: q :: tl).length)) := by
    simp only [validate_cmd, hres]
  constructor
  · intro hdedup
    rw [hstep, if_pos hdedup, if_neg (Nat.not_le.mpr hlen)]
  · intro hdedup
    rw [hstep, if_neg hdedup]

/-- Witness for `validate_cmd_ambiguous_dedup`: two candidates with one
common real path succeed with the first raw candidate; two candidates
with distinct real paths fail with `AmbiguousBinary` reporting 2. -/
theorem validate_cmd_ambiguous_dedup_witness :
    validate_cmd pingResolve pingAbs [("ping"), ("x")] =
      some (Except.ok [("/bin/ping"), ("x")])
    ∧ validate_cmd pingResolveDistinct identAbs [("ping")] =
      some (Except.error (ResolveErr.ambiguousBinary ("ping") 2)) := by
  constructor
  · exact (validate_cmd_ambiguous_dedup pingResolve pingAbs ("ping") [("x")]
      ("/bin/ping") ("/usr/bin/ping") [] (by decide) (by decide)
      (by simp [maxargs])).1 (by decide)
  · exact (validate_cmd_ambiguous_dedup pingResolveDistinct identAbs ("ping") []
      ("/bin/ping") ("/usr/sbin/ping") [] (by decide) (by decide)
      (by simp [maxargs])).2 (by decide)

/-- Claim C9: `terminate` on an already-`Dead` tracker is a no-op in the
claimed sense for every oracle behaviour — the state stays `Dead`, no
signal is sent (`hasKill` is false), and no detach is issued. -/
theorem terminate_noop_when_dead (cp : ChildProc) (force : Bool)
    (os : List WaitRes) (out : ChildProc × List WaitRes × List Event)
    (hdead : cp.state_ = State.DIED)
    (h : ChildProc.terminate cp force os = some out) :
    out.1.state_ = State.DIED ∧ hasKill out.2.2 = false ∧
      hasDetach out.2.2 = false := by
  unfold ChildProc.terminate at h
  cases h1 : check_child cp false os with
  | none => rw [h1] at h; simp at h
  | some r =>
    obtain ⟨cp1, os1, ev1⟩ := r
    rw [h1] at h
    have hd1 : cp1.state_ = State.DIED :=
      check_child_preserves_died cp false os cp1 os1 ev1 h1 hdead
    have hb : cp1.died = true := by simp [ChildProc.died, hd1]
    simp only [hb, if_pos rfl, if_true, Option.some.injEq] at h
    subst h
    exact ⟨hd1, check_child_no_kill cp false os cp1 os1 ev1 h1,
      check_child_no_detach cp false os cp1 os1 ev1 h1⟩

/-- Witness for `terminate_noop_when_dead`: a dead tracker, an
`ECHILD`-failing `waitpid`; the result keeps state `DIED` and the trace
contains neither a kill nor a detach. -/
theorem terminate_noop_when_dead_witness :
    ((cpDead, ([] : List WaitRes),
        [Event.waitpidCall false, Event.logWarning]) :
      ChildProc × List WaitRes × List Event).1.state_ = State.DIED ∧
    hasKill [Event.waitpidCall false, Event.logWarning] = false ∧
    hasDetach [Event.waitpidCall false, Event.logWarning] = false :=
  terminate_noop_when_dead cpDead true [WaitRes.fail ECHILD]
    (cpDead, [], [Event.waitpidCall false, Event.logWarning])
    (by decide) (by decide)

/-- Claim C10: in the child, once `prctl` and the 8-byte gate read have
succeeded, only a token exactly equal to `CHILD_PTRACE` triggers the
traceme-and-self-stop sequence; every other token value — not only
`CHILD_GO` — proceeds directly to `execve`. -/
theorem childfn_pause_token_only (c0 : String) (rest : List String)
    (event_fd selfPid : Int) (env : ChildEnv)
    (hp : env.prctlOk = true) (hr : env.readOk = true)
    (hlen : (c0 :: rest).length + 1 ≤ maxargs) :
    (env.token ≠ CHILD_PTRACE →
      childfn (c0 :: rest) event_fd selfPid env =
        some ((if env.execveOk then ChildExit.execed c0 else ChildExit.code 12),
          [Event.prctlPdeathsig, Event.readFd event_fd, Event.closeFd event_fd,
           Event.execveCall c0]))
    ∧ (env.token = CHILD_PTRACE →
      childfn (c0 :: rest) event_fd selfPid env =
        some ((if env.execveOk then ChildExit.execed c0 else ChildExit.code 12),
          [Event.prctlPdeathsig, Event.readFd event_fd, Event.closeFd event_fd,
           Event.ptraceTraceme, Event.killSig selfPid SIGSTOP,
           Event.execveCall c0])) := by
  have hguard : ¬ (maxargs < (c0 :: rest).length + 1) := Nat.not_lt.mpr hlen
  simp only [List.length_cons] at hlen
  constructor <;> intro ht <;> cases hex : env.execveOk <;>
    simp [childfn, hp, hr, hguard, ht, hex] <;> omega

/-- Witness for `childfn_pause_token_only`: the `CHILD_GO` token and an
arbitrary non-`GO`, non-`PAUSE` token (0) both go straight to `execve`,
applying the theorem at two concrete oracles. -/
theorem childfn_pause_token_only_witness :
    childfn [("/bin/echo")] 3 42
        { prctlOk := true, readOk := true, token := CHILD_GO, execveOk := true } =
      some (ChildExit.execed ("/bin/echo"),
        [Event.prctlPdeathsig, Event.readFd 3, Event.closeFd 3,
         Event.execveCall ("/bin/echo")])
    ∧ childfn [("/bin/echo")] 3 42
        { prctlOk := true, readOk := true, token := 0, execveOk := true } =
      some (ChildExit.execed ("/bin/echo"),
        [Event.prctlPdeathsig, Event.readFd 3, Event.closeFd 3,
         Event.execveCall ("/bin/echo")]) :=
  ⟨(childfn_pause_token_only ("/bin/echo") [] 3 42
      { prctlOk := true, readOk := true, token := CHILD_GO, execveOk := true }
      rfl rfl (by decide)).1 (by decide),
   (childfn_pause_token_only ("/bin/echo") [] 3 42
      { prctlOk := true, readOk := true, token := 0, execveOk := true }
      rfl rfl (by decide)).1 (by decide)⟩

/-- Claim C3, as stated, is FALSE on the code: during
`run(pauseAtExec = true)`, when the wait for the self-issued stop
observes a child stopped by `SIGTRAP` instead of `SIGSTOP` (status
`STOPPED_BY_SIGTRAP`, a live, stopped child), `report_status` throws
from outside the `try` block: the failure is surfaced but the trace
contains no kill and no detach — the child is left alive and stopped. -/
theorem run_pause_self_stop_abort_refuted :
    (ChildProc.run cpForked true
        { writeOk := true, junkStatus := 0, setoptsOk := true, contOk := true,
          waits := [WaitRes.zero, WaitRes.reaped STOPPED_BY_SIGTRAP] }).map
        (fun out => (out.1, hasKill out.2.2.2, hasDetach out.2.2.2)) =
      some (Except.error (RunErr.unexpectedStatus STOPPED_BY_SIGTRAP),
        false, false)
    ∧ WIFSTOPPED STOPPED_BY_SIGTRAP = true := by decide

/-- Claim C3, amended: aborts inside the exec-notification phase (the
`try` block: trace-option setup, continue, the wait for the exec event,
or an unexpected status there) detach from the child and forcibly
terminate it before surfacing the failure; but an unexpected status
observed at the wait for the self-issued stop surfaces the startup
failure directly, with no detach and no termination of the child. -/
theorem run_pause_abort_paths :
    (∀ (cp : ChildProc) (s1 junk : Nat) (rest : List WaitRes) (sOk cOk : Bool),
      cp.state_ = State.FORKED →
      (WIFSTOPPED s1 && WSTOPSIG s1 == SIGSTOP) = false →
      ChildProc.run cp true
          { writeOk := true, junkStatus := junk, setoptsOk := sOk,
            contOk := cOk,
            waits := WaitRes.zero :: WaitRes.reaped s1 :: rest } =
        some (Except.error (RunErr.unexpectedStatus s1),
          { cp with state_ := State.PTRACE_PAUSE }, rest,
          [Event.waitpidCall false,
           Event.writeFd cp.child_event_fd_ CHILD_PTRACE,
           Event.closeFd cp.child_event_fd_, Event.waitpidCall true]))
    ∧ (∀ (cp : ChildProc) (s2 junk : Nat),
      cp.state_ = State.FORKED → 1 < cp.child_pid_ →
      (WIFSTOPPED s2 && s2 >>> 8 == (SIGTRAP ||| (PTRACE_EVENT_EXEC <<< 8)))
          = false →
      ChildProc.run cp true
          { writeOk := true, junkStatus := junk, setoptsOk := true,
            contOk := true,
            waits := [WaitRes.zero, WaitRes.reaped STOPPED_BY_SIGSTOP,
              WaitRes.reaped s2, WaitRes.zero,
              WaitRes.reaped KILLED_BY_SIGKILL] } =
        some (Except.error RunErr.writeGoFailed,
          { cp with state_ := State.DIED, term_signal_ := some SIGKILL }, [],
          [Event.waitpidCall false,
           Event.writeFd cp.child_event_fd_ CHILD_PTRACE,
           Event.closeFd cp.child_event_fd_, Event.waitpidCall true,
           Event.ptraceSetOptions cp.child_pid_, Event.ptraceCont cp.child_pid_,
           Event.waitpidCall true, Event.ptraceDetach cp.child_pid_,
           Event.waitpidCall false, Event.killSig cp.child_pid_ SIGKILL,
           Event.ptraceDetach cp.child_pid_, Event.waitpidCall true])) := by
  constructor
  · intro cp s1 junk rest sOk cOk hforked hbad
    simp [ChildProc.run, ChildProc.is_alive, check_child, firstNonEintr,
      ChildProc.died, hforked, hbad]
  · intro cp s2 junk hforked hpid hs2
    have hple : ¬ (cp.child_pid_ ≤ 1) := not_le.mpr hpid
    have hns2 : ¬ (WIFSTOPPED s2 = true ∧
        s2 >>> 8 = SIGTRAP ||| PTRACE_EVENT_EXEC <<< 8) := by
      intro hc
      rcases hc with ⟨hc1, hc2⟩
      simp [hc1, hc2] at hs2
    simp [ChildProc.run, ChildProc.is_alive, check_child, firstNonEintr,
      ChildProc.died, hforked]
    rw [if_neg (by decide), if_neg hns2]
    simp [runCatch, ChildProc.terminate, check_child, firstNonEintr,
      check_wstatus, ChildProc.died, hple, KILLED_BY_SIGKILL,
      WIFEXITED, WIFSIGNALED, WTERMSIG, WEXITSTATUS, SIGKILL]

/-- Witness for `run_pause_abort_paths`: the first-wait abort at a
concrete tracker, with status 0 (a normal exit, not a `SIGSTOP` stop):
the run surfaces the failure with no kill and no detach events. -/
theorem run_pause_abort_paths_witness :
    ChildProc.run cpForked true
        { writeOk := true, junkStatus := 0, setoptsOk := true, contOk := true,
          waits := WaitRes.zero :: WaitRes.reaped 0 :: [WaitRes.zero] } =
      some (Except.error (RunErr.unexpectedStatus 0),
        { cpForked with state_ := State.PTRACE_PAUSE }, [WaitRes.zero],
        [Event.waitpidCall false,
         Event.writeFd cpForked.child_event_fd_ CHILD_PTRACE,
         Event.closeFd cpForked.child_event_fd_, Event.waitpidCall true]) :=
  run_pause_abort_paths.1 cpForked 0 0 [WaitRes.zero] true true
    (by decide) (by decide)

/-- Claim C4, as stated, is FALSE on the code: `terminate(force=false)`
on a live `RUNNING` child sends `SIGTERM` but the final
`check_child(force)` call is non-blocking (`WNOHANG` stays set), so
`terminate` returns with the child unreaped (state still `RUNNING`) and
no blocking wait anywhere in the trace. -/
theorem terminate_graceful_no_blocking_reap_refuted :
    (ChildProc.terminate cpRunning false [WaitRes.zero, WaitRes.zero]).map
        (fun out => (out.1.state_, out.2.2,
          decide (Event.waitpidCall true ∈ out.2.2))) =
      some (State.RUNNING,
        [Event.waitpidCall false, Event.killSig 42 SIGTERM,
         Event.waitpidCall false], false) := by decide

/-- Claim C4, amended: on a child that is still live after the initial
poll, `terminate` performs a final reap attempt whose wait is blocking
exactly when `force` is true; with `force = false` every wait in the
call is non-blocking, so only forced termination guarantees the child
is reaped by the time `terminate` returns. -/
theorem terminate_final_reap_blocking_iff_force (cp : ChildProc) (force : Bool)
    (os : List WaitRes) (cp1 : ChildProc) (os1 : List WaitRes) (ev1 : List Event)
    (out : ChildProc × List WaitRes × List Event)
    (h1 : check_child cp false os = some (cp1, os1, ev1))
    (halive : cp1.died = false)
    (h : ChildProc.terminate cp force os = some out) :
    (force = true → Event.waitpidCall true ∈ out.2.2) ∧
    (force = false → Event.waitpidCall true ∉ out.2.2) := by
  simp only [ChildProc.terminate, h1, halive, Bool.false_eq_true, if_false] at h
  cases h2 : check_child cp1 force os1 with
  | none => simp [h2] at h
  | some r =>
    obtain ⟨cp2, os2, ev2⟩ := r
    simp only [h2, Option.some.injEq] at h
    subst h
    constructor
    · intro hf
      subst hf
      have hw := check_child_has_wait cp1 true os1 cp2 os2 ev2 h2
      simp only [List.mem_append]
      exact Or.inr hw
    · intro hf
      subst hf
      intro hmem
      simp only [List.mem_append] at hmem
      rcases hmem with (((hm | hm) | hm) | hm) | hm
      · exact absurd
          (check_child_wait_flag cp false true os cp1 os1 ev1 h1 hm) (by decide)
      · by_cases hb : cp1.child_pid_ ≤ 1 <;> simp [hb] at hm
      · simp at hm
      · by_cases hd : cp1.state_ = State.PTRACE_PAUSE <;> simp [hd] at hm
      · exact absurd
          (check_child_wait_flag cp1 false true os1 cp2 os2 ev2 h2 hm) (by decide)

/-- Witness for `terminate_final_reap_blocking_iff_force`: a forced
terminate on a live child does contain a blocking wait. -/
theorem terminate_final_reap_blocking_iff_force_witness :
    Event.waitpidCall true ∈
      [Event.waitpidCall false, Event.killSig 42 SIGKILL,
       Event.waitpidCall true] :=
  (terminate_final_reap_blocking_iff_force cpRunning true
      [WaitRes.zero, WaitRes.reaped KILLED_BY_SIGKILL] cpRunning
      [WaitRes.reaped KILLED_BY_SIGKILL] [Event.waitpidCall false]
      ({ cpRunning with state_ := State.DIED, term_signal_ := some SIGKILL },
        [],
        [Event.waitpidCall false, Event.killSig 42 SIGKILL,
         Event.waitpidCall true])
      (by decide) (by decide) (by decide)).1 rfl

/-- Claim C5, as stated, is FALSE on the code: terminating a
`PTRACE_PAUSE` tracker sends the signal FIRST (`killSig` at index 1)
and only then detaches (`ptraceDetach` at index 2) — the detach is not
performed strictly before the signal is sent. -/
theorem terminate_paused_detach_first_refuted :
    (ChildProc.terminate cpPaused false [WaitRes.zero, WaitRes.zero]).map
        (fun out => out.2.2) =
      some [Event.waitpidCall false, Event.killSig 42 SIGTERM,
        Event.ptraceDetach 42, Event.waitpidCall false]
    ∧ List.indexOf (Event.killSig 42 SIGTERM)
        [Event.waitpidCall false, Event.killSig 42 SIGTERM,
         Event.ptraceDetach 42, Event.waitpidCall false] <
      List.indexOf (Event.ptraceDetach 42)
        [Event.waitpidCall false, Event.killSig 42 SIGTERM,
         Event.ptraceDetach 42, Event.waitpidCall false] := by decide

/-- Claim C5, amended: whenever `terminate` runs while the state is
`PTRACE_PAUSE` (and the child is still live at the initial poll), the
termination signal is sent first and the tracker detaches immediately
afterwards — the detach then lets the queued signal be delivered to the
no-longer-trace-stopped child. -/
theorem terminate_paused_kills_then_detaches (cp : ChildProc) (force : Bool)
    (os : List WaitRes) (cp1 : ChildProc) (os1 : List WaitRes) (ev1 : List Event)
    (cp2 : ChildProc) (os2 : List WaitRes) (ev2 : List Event)
    (h1 : check_child cp false os = some (cp1, os1, ev1))
    (halive : cp1.died = false)
    (hpause : cp1.state_ = State.PTRACE_PAUSE)
    (hpid : 1 < cp1.child_pid_)
    (h2 : check_child cp1 force os1 = some (cp2, os2, ev2)) :
    ChildProc.terminate cp force os =
      some (cp2, os2,
        ev1 ++
          [Event.killSig cp1.child_pid_ (if force then SIGKILL else SIGTERM),
           Event.ptraceDetach cp1.child_pid_] ++ ev2) := by
  have hple : ¬ (cp1.child_pid_ ≤ 1) := not_le.mpr hpid
  simp [ChildProc.terminate, h1, h2, halive, hpause, hple]

/-- Witness for `terminate_paused_kills_then_detaches`: a forced
terminate of a concrete paused tracker yields exactly the
kill-then-detach trace. -/
theorem terminate_paused_kills_then_detaches_witness :
    ChildProc.terminate cpPaused true
        [WaitRes.zero, WaitRes.reaped KILLED_BY_SIGKILL] =
      some ({ cpPaused with state_ := State.DIED, term_signal_ := some SIGKILL },
        [],
        [Event.waitpidCall false] ++
          [Event.killSig 42 (if true then SIGKILL else SIGTERM),
           Event.ptraceDetach 42] ++ [Event.waitpidCall true]) :=
  terminate_paused_kills_then_detaches cpPaused true
    [WaitRes.zero, WaitRes.reaped KILLED_BY_SIGKILL] cpPaused
    [WaitRes.reaped KILLED_BY_SIGKILL] [Event.waitpidCall false]
    { cpPaused with state_ := State.DIED, term_signal_ := some SIGKILL }
    [] [Event.waitpidCall true]
    (by decide) (by decide) (by decide) (by decide) (by decide)

/-- Claim C8: the code contradicts it (code bug).  A successful
`run(false)` closes the start-gate fd 3 but never resets
`child_event_fd_`, so the destructor's still-open guard
(`child_event_fd_ >= 0`) passes again and `close(3)` is issued a second
time: across `run` and destruction the same gate fd is closed twice. -/
theorem gate_fd_closed_twice :
    ChildProc.run cpForked false
        { writeOk := true, junkStatus := 0, setoptsOk := true, contOk := true,
          waits := [WaitRes.zero] } =
      some (Except.ok (), cpRunning, [],
        [Event.waitpidCall false, Event.writeFd 3 CHILD_GO, Event.closeFd 3])
    ∧ ChildProc.destructor cpRunning [WaitRes.reaped 0] =
      some ({ cpRunning with state_ := State.DIED, exit_code_ := some 0 }, [],
        [Event.closeFd 3, Event.waitpidCall false])
    ∧ ([Event.waitpidCall false, Event.writeFd 3 CHILD_GO, Event.closeFd 3] ++
        [Event.closeFd 3, Event.waitpidCall false]).count (Event.closeFd 3)
        = 2 := by
  refine ⟨by decide, by decide, by decide⟩

end Bpftrace
